import Mathlib

/-!
Verification of the sampling-and-aggregation engine of `monitor.py`
(`SystemMonitor`): the fixed-interval metric collector `collect_data`, its
delta-rate computation for cumulative counters, the fallback policy for
missing sensors, and the summary-statistics / report-assembly pipeline of
`generate_pdf_report` and `start`.

Python floats are modelled by `ℚ` (all arithmetic the claims touch is exact:
integer byte counters differenced and divided by `1024 * 1024`), cumulative
byte counters by `ℕ`, and a metric probe that can fail (`None` in Python) by
`Option`.
-/

namespace SystemMonitor

/-- Result of `psutil.disk_io_counters()`: the cumulative byte counters the
code reads (`read_bytes`, `write_bytes`). -/
structure DiskCounters where
  read_bytes : ℕ
  write_bytes : ℕ
  deriving Repr, DecidableEq

/-- Result of `psutil.net_io_counters()`: the cumulative byte counters the
code reads (`bytes_sent`, `bytes_recv`). -/
structure NetCounters where
  bytes_sent : ℕ
  bytes_recv : ℕ
  deriving Repr, DecidableEq

/-- The mutable state of a `SystemMonitor` object that the collector touches:
the eleven per-metric series lists created empty in `__init__`, plus the
previous-counter snapshots `last_net` / `last_disk` (set in `__init__` from
`psutil.net_io_counters()` / `psutil.disk_io_counters()`, both of which may
return `None` on platforms without the counters) and the configured
`duration`. -/
structure MonitorState where
  duration : ℚ
  timestamps : List ℚ
  cpu_percent : List ℚ
  memory_percent : List ℚ
  disk_read : List ℚ
  disk_write : List ℚ
  network_sent : List ℚ
  network_recv : List ℚ
  cpu_temp : List ℚ
  gpu_util : List ℚ
  gpu_temp : List ℚ
  gpu_memory : List ℚ
  last_net : Option NetCounters
  last_disk : Option DiskCounters
  deriving Repr, DecidableEq

/-- The `SystemMonitor.__init__` state for a given duration and initial
counter snapshots: all eleven series lists empty. -/
def initState (duration : ℚ) (net0 : Option NetCounters)
    (disk0 : Option DiskCounters) : MonitorState :=
  ⟨duration, [], [], [], [], [], [], [], [], [], [], [], net0, disk0⟩

/-- Everything one call of `collect_data` reads from the outside world:
`time.time() - self.start_time`, the instantaneous gauges, the counter
snapshots (`none` = the psutil call returned `None`), the `get_cpu_temp()`
result (`none` = no sensor), and the `get_gpu_info()` triple (each component
`none` when `GPU_AVAILABLE` is false, no GPU is present, or the backend
raised). -/
structure TickReading where
  now : ℚ
  cpu : ℚ
  memory : ℚ
  disk : Option DiskCounters
  net : Option NetCounters
  cpuTempProbe : Option ℚ
  gpuUtilProbe : Option ℚ
  gpuTempProbe : Option ℚ
  gpuMemProbe : Option ℚ
  deriving Repr, DecidableEq

/-- Python's `x if x else 0` applied to an optional float: `None` falls back
to `0`, and so does a genuine reading of `0.0` (falsy); any other value
passes through. -/
def pyTruthyOr0 (o : Option ℚ) : ℚ :=
  match o with
  | none => 0
  | some v => if v = 0 then 0 else v

/-- The code's rate computation, e.g.
`(disk.read_bytes - self.last_disk.read_bytes) / (1024 * 1024)`:
the raw counter delta divided by `2 ^ 20`, with no clamping and no division
by elapsed time. -/
def delta_mb (cur last : ℕ) : ℚ :=
  ((cur : ℚ) - (last : ℚ)) / 1048576

/-- The method `SystemMonitor.collect_data`, statement by statement. Appends happen in
source order: timestamp, cpu, memory, then the disk branch
(`if disk and self.last_disk:` computes deltas and replaces `last_disk`,
`else` appends zeros), then the network lines — which are NOT guarded: when
`psutil.net_io_counters()` returns `None` (or `last_net` is `None`),
`net.bytes_sent` raises `AttributeError` and the method aborts with the
partial appends already made. Returns the mutated object state together with
`true` when the method returned normally and `false` when it raised. -/
def collect_data (s : MonitorState) (r : TickReading) : MonitorState × Bool :=
  let s1 := { s with timestamps := s.timestamps ++ [r.now] }
  let s2 := { s1 with cpu_percent := s1.cpu_percent ++ [r.cpu] }
  let s3 := { s2 with memory_percent := s2.memory_percent ++ [r.memory] }
  let s4 :=
    match r.disk, s3.last_disk with
    | some disk, some last =>
        { s3 with
          disk_read := s3.disk_read ++ [delta_mb disk.read_bytes last.read_bytes],
          disk_write := s3.disk_write ++ [delta_mb disk.write_bytes last.write_bytes],
          last_disk := some disk }
    | _, _ =>
        { s3 with
          disk_read := s3.disk_read ++ [0],
          disk_write := s3.disk_write ++ [0] }
  match r.net, s4.last_net with
  | some net, some last =>
      let s5 := { s4 with
        network_sent := s4.network_sent ++ [delta_mb net.bytes_sent last.bytes_sent],
        network_recv := s4.network_recv ++ [delta_mb net.bytes_recv last.bytes_recv],
        last_net := some net }
      let s6 := { s5 with cpu_temp := s5.cpu_temp ++ [pyTruthyOr0 r.cpuTempProbe] }
      let s7 := { s6 with
        gpu_util := s6.gpu_util ++ [pyTruthyOr0 r.gpuUtilProbe],
        gpu_temp := s6.gpu_temp ++ [pyTruthyOr0 r.gpuTempProbe],
        gpu_memory := s6.gpu_memory ++ [pyTruthyOr0 r.gpuMemProbe] }
      (s7, true)
  | _, _ => (s4, false)

/-! ## Report builder: summary statistics table -/

/-- The statistic `np.mean` over a series column. (NumPy on an empty column yields NaN; the
report is only built over a non-empty series, see `start_finish`.) -/
def npMean (l : List ℚ) : ℚ := l.sum / l.length

/-- The statistic `np.min` over a series column (junk value `0` for the empty column, on
which NumPy raises; not reached in the program). -/
def npMin (l : List ℚ) : ℚ :=
  match l with
  | [] => 0
  | x :: xs => xs.foldl min x

/-- The statistic `np.max` over a series column (same empty-column caveat as `npMin`). -/
def npMax (l : List ℚ) : ℚ :=
  match l with
  | [] => 0
  | x :: xs => xs.foldl max x

/-- The square of `np.std` (population variance, ddof = 0): the mean squared
deviation over the full column. `np.std` itself is the real square root of
this, which is irrational in general; since `x ↦ √x` is injective on the
outputs, carrying the variance preserves exactly which samples feed the
statistic, which is what the claims are about. -/
def npVarianceSq (l : List ℚ) : ℚ :=
  npMean (l.map fun x => (x - npMean l) ^ 2)

/-- One row of the `summary_data` table: resource name and the four
statistics (std represented by its square, see `npVarianceSq`). -/
structure SummaryRow where
  resource : String
  avg : ℚ
  minimum : ℚ
  maximum : ℚ
  varianceSq : ℚ
  deriving Repr, DecidableEq

/-- A summary-table row computed over a full series column, the way every
`summary_data.append` in the source computes it:
`[name, np.mean(col), np.min(col), np.max(col), np.std(col)]`. -/
def statRow (name : String) (l : List ℚ) : SummaryRow :=
  ⟨name, npMean l, npMin l, npMax l, npVarianceSq l⟩

/-- Python's `any(t > 0 for t in l)`, the guard the source uses both for the
CPU-temperature row (`if any(t > 0 for t in self.cpu_temp):`) and for the
GPU rows (`if GPU_AVAILABLE and any(g > 0 for g in self.gpu_util):`). -/
def anyPos (l : List ℚ) : Bool := l.any fun t => decide (0 < t)

/-- The `summary_data` table of `generate_pdf_report` (header row omitted):
six unconditional resource rows, then the CPU-temperature row guarded by
`any(t > 0)`, then the three GPU rows guarded by
`GPU_AVAILABLE and any(g > 0)`. -/
def summary_data (m : MonitorState) (gpuAvailable : Bool) : List SummaryRow :=
  [statRow "CPU Usage (%)" m.cpu_percent,
   statRow "Memory Usage (%)" m.memory_percent,
   statRow "Disk Read (MB/s)" m.disk_read,
   statRow "Disk Write (MB/s)" m.disk_write,
   statRow "Network Sent (MB/s)" m.network_sent,
   statRow "Network Recv (MB/s)" m.network_recv]
  ++ (if anyPos m.cpu_temp then [statRow "CPU Temperature (C)" m.cpu_temp] else [])
  ++ (if gpuAvailable && anyPos m.gpu_util then
        [statRow "GPU Utilization (%)" m.gpu_util,
         statRow "GPU Memory (%)" m.gpu_memory,
         statRow "GPU Temperature (C)" m.gpu_temp]
      else [])

/-! ## Report builder: detailed-records excerpt -/

/-- One body row of the `detailed_data` table: either the sample at index
`i` of the series, or the `['...', ...]` separator row. -/
inductive DetailRow where
  | sample (i : ℕ)
  | ellipsis
  deriving Repr, DecidableEq

/-- The body rows of the detailed-data table for a series of `n` samples:
`for i in range(min(10, len)):` appends the leading excerpt, and
`if len > 20:` appends the separator row followed by
`for i in range(max(10, len - 10), len):`. -/
def detailed_rows (n : ℕ) : List DetailRow :=
  ((List.range (min 10 n)).map DetailRow.sample)
  ++ (if 20 < n then
        DetailRow.ellipsis ::
          ((List.range' (max 10 (n - 10)) (n - max 10 (n - 10))).map DetailRow.sample)
      else [])

/-! ## Report builder: temporary chart artifact lifecycle -/

/-- The statements of `generate_pdf_report` that touch `temp_graphs.png`, in
source order: `plt.savefig(graph_file)` creates it, `doc.build(elements)`
either succeeds or raises (e.g. unwritable output path), and the
`if os.path.exists(graph_file): os.remove(graph_file)` cleanup comes after
`doc.build` with no `try`/`finally`. -/
inductive ReportStep where
  | savefig
  | build (ok : Bool)
  | removeTemp
  deriving Repr, DecidableEq

/-- Executes report steps over the flag "does `temp_graphs.png` exist".
Returns (method returned normally, temp file exists when control leaves the
method); a failing `build` propagates the exception, skipping the rest. -/
def runReportSteps : List ReportStep → Bool → Bool × Bool
  | [], fs => (true, fs)
  | ReportStep.savefig :: rest, _ => runReportSteps rest true
  | ReportStep.build ok :: rest, fs =>
      if ok then runReportSteps rest fs else (false, fs)
  | ReportStep.removeTemp :: rest, _ => runReportSteps rest false

/-- The artifact-relevant effect of one `generate_pdf_report` invocation,
starting with no temp file on disk, where `buildOk` says whether
`doc.build` succeeds. -/
def generate_pdf_report_fs (buildOk : Bool) : Bool × Bool :=
  runReportSteps [ReportStep.savefig, ReportStep.build buildOk, ReportStep.removeTemp] false

/-! ## The `start` driver -/

/-- The collection loop of `SystemMonitor.start`:
`while (time.time() - start_time) < self.duration:` then one `collect_data`
per iteration. `checks` is the sequence of elapsed wall-clock values
observed at successive loop-condition evaluations (strictly increasing in a
real run, the first one a non-negative instant after `start_time` is taken);
the result is the number of samples collected before the condition first
fails. -/
def collection_loop (duration : ℚ) : List ℚ → ℕ
  | [] => 0
  | t :: ts => if t < duration then collection_loop duration ts + 1 else 0

/-- What `start` does after the loop:
`if len(self.timestamps) > 0: self.generate_pdf_report()` else print the
no-data notice. -/
inductive FinishAction where
  | generateReport (filename : String)
  | noDataNotice (msg : String)
  deriving Repr, DecidableEq

/-- The report-or-notice decision at the end of `SystemMonitor.start`. -/
def start_finish (m : MonitorState) : FinishAction :=
  if 0 < m.timestamps.length then
    FinishAction.generateReport "system_monitor_report.pdf"
  else
    FinishAction.noDataNotice "No data collected. Report not generated."

/-! ## Spec-side definitions (for refinement comparison only) -/

/-- Modelled from the spec, NOT from the source: the rate formula the spec
words as `max(0, (current - previous) / elapsed_since_last_tick)` converted
to MB/s (taking MB = 2 ^ 20 bytes, the unit the code divides by). Written
only to be compared against the code's `delta_mb`. -/
def spec_rate (cur last : ℕ) (elapsed : ℚ) : ℚ :=
  max 0 (((cur : ℚ) - (last : ℚ)) / elapsed) / 1048576

/-- The eleven series-list lengths of a monitor state, in `__init__` order. -/
def series_lengths (m : MonitorState) : List ℕ :=
  [m.timestamps.length, m.cpu_percent.length, m.memory_percent.length,
   m.disk_read.length, m.disk_write.length, m.network_sent.length,
   m.network_recv.length, m.cpu_temp.length, m.gpu_util.length,
   m.gpu_temp.length, m.gpu_memory.length]

/-- Well-formedness of the series store: all eleven per-metric lists have
the same length, so every index addresses one complete sample row. -/
def series_wf (m : MonitorState) : Prop :=
  series_lengths m = List.replicate 11 m.timestamps.length

/-! ## Helper lemmas about one `collect_data` call -/

/-- A counter delta converted by `delta_mb` is negative exactly when the
cumulative counter decreased (wrapped or was reset). -/
theorem delta_mb_neg_iff (cur last : ℕ) : delta_mb cur last < 0 ↔ cur < last := by
  unfold delta_mb
  constructor
  · intro h
    by_contra hc
    push_neg at hc
    have hnum : (0 : ℚ) ≤ (cur : ℚ) - (last : ℚ) := by
      have : (last : ℚ) ≤ (cur : ℚ) := by exact_mod_cast hc
      linarith
    have : (0 : ℚ) ≤ ((cur : ℚ) - (last : ℚ)) / 1048576 :=
      div_nonneg hnum (by norm_num)
    linarith
  · intro h
    apply div_neg_of_neg_of_pos
    · have : (cur : ℚ) < (last : ℚ) := by exact_mod_cast h
      linarith
    · norm_num

/-- When the network read succeeds (both the current reading and the stored
snapshot exist), `collect_data` returns normally and performs every append
of the method body; the disk lists grow by one in either disk branch. -/
theorem collect_data_net_ok (s : MonitorState) (r : TickReading)
    (n l : NetCounters) (hn : r.net = some n) (hl : s.last_net = some l) :
    (collect_data s r).2 = true
    ∧ (collect_data s r).1.timestamps = s.timestamps ++ [r.now]
    ∧ (collect_data s r).1.cpu_percent = s.cpu_percent ++ [r.cpu]
    ∧ (collect_data s r).1.memory_percent = s.memory_percent ++ [r.memory]
    ∧ (collect_data s r).1.network_sent
        = s.network_sent ++ [delta_mb n.bytes_sent l.bytes_sent]
    ∧ (collect_data s r).1.network_recv
        = s.network_recv ++ [delta_mb n.bytes_recv l.bytes_recv]
    ∧ (collect_data s r).1.cpu_temp = s.cpu_temp ++ [pyTruthyOr0 r.cpuTempProbe]
    ∧ (collect_data s r).1.gpu_util = s.gpu_util ++ [pyTruthyOr0 r.gpuUtilProbe]
    ∧ (collect_data s r).1.gpu_temp = s.gpu_temp ++ [pyTruthyOr0 r.gpuTempProbe]
    ∧ (collect_data s r).1.gpu_memory = s.gpu_memory ++ [pyTruthyOr0 r.gpuMemProbe]
    ∧ (collect_data s r).1.disk_read.length = s.disk_read.length + 1
    ∧ (collect_data s r).1.disk_write.length = s.disk_write.length + 1 := by
  rcases hd : r.disk with _ | d <;> rcases hld : s.last_disk with _ | ld <;>
    simp [collect_data, hd, hld, hn, hl]

/-- When the disk read succeeds and a snapshot exists, the stored rates are
the raw `delta_mb` values and the snapshot is replaced. -/
theorem collect_data_disk_ok (s : MonitorState) (r : TickReading)
    (d ld : DiskCounters) (hd : r.disk = some d) (hld : s.last_disk = some ld) :
    (collect_data s r).1.disk_read = s.disk_read ++ [delta_mb d.read_bytes ld.read_bytes]
    ∧ (collect_data s r).1.disk_write
        = s.disk_write ++ [delta_mb d.write_bytes ld.write_bytes]
    ∧ (collect_data s r).1.last_disk = some d := by
  rcases hn : r.net with _ | n <;> rcases hln : s.last_net with _ | ln <;>
    simp [collect_data, hd, hld, hn, hln]

/-- When the disk read fails (or no snapshot exists), the `else` branch
stores literal zeros for both disk rates. -/
theorem collect_data_disk_fallback (s : MonitorState) (r : TickReading)
    (h : r.disk = none ∨ s.last_disk = none) :
    (collect_data s r).1.disk_read = s.disk_read ++ [0]
    ∧ (collect_data s r).1.disk_write = s.disk_write ++ [0] := by
  rcases hn : r.net with _ | n <;> rcases hln : s.last_net with _ | ln <;>
    rcases h with h | h <;>
      rcases hd : r.disk with _ | d <;> rcases hld : s.last_disk with _ | ld <;>
        simp_all [collect_data]

/-- When the network read is unavailable (`psutil.net_io_counters()` is
`None`, or the `__init__` snapshot was `None`), `collect_data` raises
`AttributeError`: it does not return normally, and the trailing appends
(network, temperature, GPU) never happen although the leading ones did. -/
theorem collect_data_net_missing (s : MonitorState) (r : TickReading)
    (h : r.net = none ∨ s.last_net = none) :
    (collect_data s r).2 = false
    ∧ (collect_data s r).1.timestamps = s.timestamps ++ [r.now]
    ∧ (collect_data s r).1.network_sent = s.network_sent
    ∧ (collect_data s r).1.cpu_temp = s.cpu_temp := by
  rcases h with h | h <;>
    rcases hn : r.net with _ | n <;> rcases hln : s.last_net with _ | ln <;>
      rcases hd : r.disk with _ | d <;> rcases hld : s.last_disk with _ | ld <;>
        simp_all [collect_data]

/-! ## Claims -/

/-- C1: the claim "each derived rate field is ≥ 0; a negative delta is
clamped to zero before being stored" is FALSE of the code: starting from a
snapshot of 1 MiB read / 1 MiB written, a tick whose disk counters read 0
(a wrapped/reset counter) stores a disk read rate of `-1`, which is
negative — `collect_data` performs no clamping. -/
theorem C1_counterexample :
    (collect_data (initState 120 (some ⟨0, 0⟩) (some ⟨1048576, 1048576⟩))
        ⟨1, 50, 40, some ⟨0, 0⟩, some ⟨0, 0⟩, none, none, none, none⟩).1.disk_read
      = [-1]
    ∧ ¬ (0 : ℚ) ≤ -1 := by
  constructor
  · simp [collect_data, initState, delta_mb]
  · norm_num

/-- C1 amended: the stored rates are the raw counter deltas divided by
`2 ^ 20`, with no clamping: whenever the current counter is below the stored
snapshot (wraparound/reset), the appended rate is strictly negative. -/
theorem C1_no_clamping (s : MonitorState) (r : TickReading)
    (d ld : DiskCounters) (hd : r.disk = some d) (hld : s.last_disk = some ld) :
    (collect_data s r).1.disk_read = s.disk_read ++ [delta_mb d.read_bytes ld.read_bytes]
    ∧ (collect_data s r).1.disk_write
        = s.disk_write ++ [delta_mb d.write_bytes ld.write_bytes]
    ∧ (d.read_bytes < ld.read_bytes → delta_mb d.read_bytes ld.read_bytes < 0)
    ∧ (d.write_bytes < ld.write_bytes → delta_mb d.write_bytes ld.write_bytes < 0) := by
  obtain ⟨h1, h2, _⟩ := collect_data_disk_ok s r d ld hd hld
  exact ⟨h1, h2, fun h => (delta_mb_neg_iff _ _).mpr h,
    fun h => (delta_mb_neg_iff _ _).mpr h⟩

/-- Witness for `C1_no_clamping` at a concrete wrapped counter. -/
theorem C1_witness :
    (collect_data (initState 120 (some ⟨0, 0⟩) (some ⟨1048576, 1048576⟩))
        ⟨1, 50, 40, some ⟨0, 0⟩, some ⟨0, 0⟩, none, none, none, none⟩).1.disk_read
      = (initState 120 (some ⟨0, 0⟩) (some ⟨1048576, 1048576⟩)).disk_read
          ++ [delta_mb 0 1048576]
    ∧ delta_mb 0 1048576 < 0 := by
  have h := C1_no_clamping (initState 120 (some ⟨0, 0⟩) (some ⟨1048576, 1048576⟩))
    ⟨1, 50, 40, some ⟨0, 0⟩, some ⟨0, 0⟩, none, none, none, none⟩
    ⟨0, 0⟩ ⟨1048576, 1048576⟩ rfl rfl
  exact ⟨h.1, h.2.2.1 (by norm_num)⟩

/-- A fixture: the state after one completed tick at elapsed time 0, with
both counter snapshots at zero. -/
def c2State : MonitorState :=
  { duration := 120, timestamps := [0], cpu_percent := [10], memory_percent := [20],
    disk_read := [0], disk_write := [0], network_sent := [0], network_recv := [0],
    cpu_temp := [0], gpu_util := [0], gpu_temp := [0], gpu_memory := [0],
    last_net := some ⟨0, 0⟩, last_disk := some ⟨0, 0⟩ }

/-- C2: the claim "each derived rate equals
`max(0, (current - previous) / elapsed_since_last_tick)` converted to MB/s"
is FALSE of the code: with the previous sample at elapsed time 0, a tick at
elapsed time 2 whose sent-bytes counter advanced by `2 * 2 ^ 20` stores a
send rate of `2`, while the spec formula over the 2-second gap yields `1` —
`collect_data` never divides by the elapsed time. -/
theorem C2_counterexample :
    c2State.timestamps = [0]
    ∧ (collect_data c2State
        ⟨2, 50, 40, some ⟨0, 0⟩, some ⟨2097152, 0⟩, none, none, none, none⟩).1.network_sent
      = [0, 2]
    ∧ spec_rate 2097152 0 (2 - 0) = 1
    ∧ (2 : ℚ) ≠ 1 := by
  refine ⟨rfl, ?_, ?_, by norm_num⟩
  · simp [collect_data, c2State, delta_mb]
    norm_num
  · simp [spec_rate]
    norm_num

/-- C2 amended: each stored rate is the raw byte delta divided by `2 ^ 20`
(no clamping and no division by the inter-tick gap; the code implicitly
assumes one-second ticks). In particular, for byte deltas of 10 MiB sent
and 2 MiB received over a 1-second tick, the stored network rates are
exactly `10` and `2`, matching the spec's concrete example. -/
theorem C2_rate_formula (s : MonitorState) (r : TickReading)
    (n ln : NetCounters) (hn : r.net = some n) (hln : s.last_net = some ln) :
    (collect_data s r).1.network_sent
      = s.network_sent ++ [delta_mb n.bytes_sent ln.bytes_sent]
    ∧ (collect_data s r).1.network_recv
      = s.network_recv ++ [delta_mb n.bytes_recv ln.bytes_recv]
    ∧ delta_mb 10485760 0 = 10
    ∧ delta_mb 2097152 0 = 2 := by
  obtain ⟨-, -, -, -, h5, h6, -⟩ := collect_data_net_ok s r n ln hn hln
  refine ⟨h5, h6, ?_, ?_⟩ <;> · simp [delta_mb]; norm_num

/-- Witness for `C2_rate_formula`: the spec's 10 MiB / 2 MiB example over a
1-second tick. -/
theorem C2_witness :
    (collect_data c2State
        ⟨1, 50, 40, some ⟨0, 0⟩, some ⟨10485760, 2097152⟩, none, none, none, none⟩).1.network_sent
      = c2State.network_sent ++ [delta_mb 10485760 0]
    ∧ delta_mb 10485760 0 = 10 := by
  have h := C2_rate_formula c2State
    ⟨1, 50, 40, some ⟨0, 0⟩, some ⟨10485760, 2097152⟩, none, none, none, none⟩
    ⟨10485760, 2097152⟩ ⟨0, 0⟩ rfl rfl
  exact ⟨h.1, h.2.2.1⟩

/-- C3: the claim "on the first collection tick of a run the derived rate
fields are exactly 0" is FALSE of the code: `__init__` already stores a
counter snapshot, so the first tick computes a delta against that baseline —
here the store is empty (first tick), the disk read counter advanced by
1 MiB since `__init__`, and the stored first-tick disk read rate is `1`,
not `0`. -/
theorem C3_counterexample :
    (initState 120 (some ⟨0, 0⟩) (some ⟨0, 0⟩)).timestamps = []
    ∧ (collect_data (initState 120 (some ⟨0, 0⟩) (some ⟨0, 0⟩))
        ⟨1, 50, 40, some ⟨1048576, 0⟩, some ⟨0, 0⟩, none, none, none, none⟩).1.disk_read
      = [1]
    ∧ (1 : ℚ) ≠ 0 := by
  refine ⟨rfl, ?_, by norm_num⟩
  simp [collect_data, initState, delta_mb]

/-- C3 amended: the disk rates of a tick are 0 exactly when the disk
counters are unavailable on that tick or no previous disk snapshot is
stored; on the first tick the code differences against the snapshot taken
in `__init__` (so the first-tick rate need not be 0), and an unavailable
NETWORK counter does not store 0 at all — the tick raises. -/
theorem C3_zero_only_when_unavailable (s : MonitorState) (r : TickReading)
    (h : r.disk = none ∨ s.last_disk = none) :
    (collect_data s r).1.disk_read = s.disk_read ++ [0]
    ∧ (collect_data s r).1.disk_write = s.disk_write ++ [0]
    ∧ (r.net = none → (collect_data s r).2 = false) := by
  obtain ⟨h1, h2⟩ := collect_data_disk_fallback s r h
  exact ⟨h1, h2, fun hn => (collect_data_net_missing s r (Or.inl hn)).1⟩

/-- Witness for `C3_zero_only_when_unavailable`: a tick with no disk
counters stores zero rates. -/
theorem C3_witness :
    (collect_data (initState 120 (some ⟨0, 0⟩) none)
        ⟨1, 50, 40, none, some ⟨0, 0⟩, none, none, none, none⟩).1.disk_read
      = (initState 120 (some ⟨0, 0⟩) none).disk_read ++ [0] :=
  (C3_zero_only_when_unavailable (initState 120 (some ⟨0, 0⟩) none)
    ⟨1, 50, 40, none, some ⟨0, 0⟩, none, none, none, none⟩ (Or.inl rfl)).1

/-- C4: the claim "for a configured duration of 0 seconds the collection
loop still produces at least one sample" is FALSE of the code: the loop
guard `while (time.time() - start_time) < self.duration` fails immediately
for duration 0 (elapsed time is never < 0), so zero samples are collected
and `start` takes the no-data branch instead of generating a report. -/
theorem C4_counterexample :
    collection_loop 0 [0, 1, 2] = 0
    ∧ ¬ 1 ≤ collection_loop 0 [0, 1, 2]
    ∧ start_finish (initState 0 (some ⟨0, 0⟩) (some ⟨0, 0⟩))
        = FinishAction.noDataNotice "No data collected. Report not generated." := by
  refine ⟨?_, ?_, by simp [start_finish, initState]⟩ <;>
    simp [collection_loop]

/-- C4 amended: for any strictly positive duration — including one shorter
than the 1-second interval — at least one sample is produced, provided the
first loop-guard check happens while the elapsed time is still below the
duration; for duration 0 (elapsed times being non-negative) the loop
produces no sample at all. -/
theorem C4_min_one_tick (duration t : ℚ) (ts : List ℚ)
    (_hd : 0 < duration) (ht : t < duration) :
    1 ≤ collection_loop duration (t :: ts)
    ∧ ∀ checks : List ℚ, (∀ u ∈ checks, 0 ≤ u) → collection_loop 0 checks = 0 := by
  constructor
  · simp only [collection_loop, if_pos ht]
    omega
  · intro checks hcheck
    induction checks with
    | nil => rfl
    | cons c cs ih =>
        have hc : ¬ c < (0 : ℚ) := not_lt.mpr (hcheck c (List.mem_cons_self c cs))
        simp only [collection_loop, if_neg hc]

/-- Witness for `C4_min_one_tick`: a half-second duration still yields a
sample; with duration 0 the checks `[0, 1]` yield none. -/
theorem C4_witness :
    1 ≤ collection_loop (1 / 2) [0]
    ∧ collection_loop 0 [0, 1] = 0 := by
  have h := C4_min_one_tick (1 / 2) 0 [] (by norm_num) (by norm_num)
  exact ⟨h.1, h.2 [0, 1] (by norm_num)⟩

/-- C5: the claim "every combination of individual metric-read failures is
tolerated: the per-tick collection step completes without raising and
appends exactly one complete sample" is FALSE of the code: when
`psutil.net_io_counters()` returns `None`, the unguarded `net.bytes_sent`
raises `AttributeError`, the tick aborts, and the sample is left half
written (the timestamp was appended, the temperature was not). -/
theorem C5_counterexample :
    (collect_data (initState 120 (some ⟨0, 0⟩) (some ⟨0, 0⟩))
        ⟨1, 50, 40, some ⟨0, 0⟩, none, none, none, none, none⟩).2 = false
    ∧ (collect_data (initState 120 (some ⟨0, 0⟩) (some ⟨0, 0⟩))
        ⟨1, 50, 40, some ⟨0, 0⟩, none, none, none, none, none⟩).1.timestamps.length = 1
    ∧ (collect_data (initState 120 (some ⟨0, 0⟩) (some ⟨0, 0⟩))
        ⟨1, 50, 40, some ⟨0, 0⟩, none, none, none, none, none⟩).1.cpu_temp.length = 0 := by
  refine ⟨?_, ?_, ?_⟩ <;> simp [collect_data, initState]

/-- C5 amended: as long as the network counter read succeeds and a network
snapshot exists, the tick completes without raising and appends exactly one
element to every one of the eleven series lists, whatever combination of
CPU-temperature, GPU, and disk-counter failures occurs (those fall back
field by field); an unavailable network reading, however, aborts the tick. -/
theorem C5_tick_survives_sensor_failures (s : MonitorState) (r : TickReading)
    (n ln : NetCounters) (hn : r.net = some n) (hln : s.last_net = some ln) :
    (collect_data s r).2 = true
    ∧ series_lengths (collect_data s r).1 = (series_lengths s).map (· + 1) := by
  obtain ⟨h1, h2, h3, h4, h5, h6, h7, h8, h9, h10, h11, h12⟩ :=
    collect_data_net_ok s r n ln hn hln
  refine ⟨h1, ?_⟩
  simp [series_lengths, h2, h3, h4, h5, h6, h7, h8, h9, h10, h11, h12]

/-- Witness for `C5_tick_survives_sensor_failures`: a tick on which the
temperature sensor, the GPU backend, and the disk counters all fail still
completes and grows every list by one. -/
theorem C5_witness :
    (collect_data (initState 120 (some ⟨0, 0⟩) none)
        ⟨1, 50, 40, none, some ⟨3, 4⟩, none, none, none, none⟩).2 = true
    ∧ series_lengths (collect_data (initState 120 (some ⟨0, 0⟩) none)
        ⟨1, 50, 40, none, some ⟨3, 4⟩, none, none, none, none⟩).1
      = (series_lengths (initState 120 (some ⟨0, 0⟩) none)).map (· + 1) :=
  C5_tick_survives_sensor_failures (initState 120 (some ⟨0, 0⟩) none)
    ⟨1, 50, 40, none, some ⟨3, 4⟩, none, none, none, none⟩ ⟨3, 4⟩ ⟨0, 0⟩ rfl rfl

/-- The guard `anyPos` is the Boolean of "some element is strictly positive". -/
theorem anyPos_iff (l : List ℚ) : anyPos l = true ↔ ∃ t ∈ l, 0 < t := by
  simp [anyPos]

/-- A fixture for C6: a one-sample run whose only CPU-temperature value is
`-1` — not the fallback sentinel `0`, yet not strictly positive. -/
def c6State : MonitorState :=
  { duration := 120, timestamps := [0], cpu_percent := [10], memory_percent := [20],
    disk_read := [0], disk_write := [0], network_sent := [0], network_recv := [0],
    cpu_temp := [-1], gpu_util := [0], gpu_temp := [0], gpu_memory := [0],
    last_net := some ⟨0, 0⟩, last_disk := some ⟨0, 0⟩ }

/-- C6: the claim "the summary table contains a CPU-temperature row if and
only if at least one collected value for that metric is non-fallback" is
FALSE of the code: the source guard is `any(t > 0 for t in self.cpu_temp)`,
not "some value differs from the sentinel 0" — for the series `[-1]`, whose
single value is non-fallback (`-1 ≠ 0`), the table still has no
CPU-temperature row. -/
theorem C6_counterexample :
    c6State.cpu_temp = [-1]
    ∧ (-1 : ℚ) ≠ 0
    ∧ (summary_data c6State false).map SummaryRow.resource
      = ["CPU Usage (%)", "Memory Usage (%)", "Disk Read (MB/s)",
         "Disk Write (MB/s)", "Network Sent (MB/s)", "Network Recv (MB/s)"] := by
  refine ⟨rfl, by norm_num, ?_⟩
  have hT : anyPos [-1] = false := by simp [anyPos]
  simp [summary_data, statRow, c6State, hT]

/-- C6 amended: the CPU-temperature row is present if and only if at least
one collected value is strictly positive (so an all-sentinel column is
omitted, but so would be a column of non-fallback values ≤ 0); whenever a
CPU-temperature row is present it is exactly the statistics row computed
over the FULL `cpu_temp` column, fallback zeros included and no sample
excluded; the GPU-utilization row likewise appears iff the GPU backend
loaded and some collected utilization is strictly positive. -/
theorem C6_row_inclusion (m : MonitorState) (g : Bool) :
    ((∃ row ∈ summary_data m g, row.resource = "CPU Temperature (C)")
      ↔ ∃ t ∈ m.cpu_temp, 0 < t)
    ∧ (∀ row ∈ summary_data m g, row.resource = "CPU Temperature (C)" →
        row = statRow "CPU Temperature (C)" m.cpu_temp)
    ∧ ((∃ row ∈ summary_data m g, row.resource = "GPU Utilization (%)")
      ↔ (g = true ∧ ∃ u ∈ m.gpu_util, 0 < u))
    ∧ ((∀ t ∈ m.cpu_temp, t = 0) →
        ∀ row ∈ summary_data m g, row.resource ≠ "CPU Temperature (C)") := by
  refine ⟨?_, ?_, ?_, ?_⟩
  · rw [← anyPos_iff]
    cases ht : anyPos m.cpu_temp <;> cases hg : g && anyPos m.gpu_util <;>
      simp [summary_data, ht, hg, statRow]
  · cases ht : anyPos m.cpu_temp <;> cases hg : g && anyPos m.gpu_util <;>
      simp [summary_data, ht, hg, statRow]
  · rw [show (g = true ∧ ∃ u ∈ m.gpu_util, 0 < u) ↔ (g && anyPos m.gpu_util) = true by
      simp [anyPos_iff, Bool.and_eq_true]]
    cases ht : anyPos m.cpu_temp <;> cases hg : g && anyPos m.gpu_util <;>
      simp [summary_data, ht, hg, statRow]
  · intro hall
    have ht : anyPos m.cpu_temp = false := by
      by_contra hcontra
      rw [Bool.not_eq_false] at hcontra
      obtain ⟨t, htm, htpos⟩ := (anyPos_iff m.cpu_temp).mp hcontra
      rw [hall t htm] at htpos
      exact lt_irrefl 0 htpos
    cases hg : g && anyPos m.gpu_util <;> simp [summary_data, ht, hg, statRow]

/-- Witness for `C6_row_inclusion`: with the single collected temperature
`3`, the CPU-temperature row is present. -/
theorem C6_witness :
    ∃ row ∈ summary_data { c6State with cpu_temp := [3] } false,
      row.resource = "CPU Temperature (C)" :=
  (C6_row_inclusion { c6State with cpu_temp := [3] } false).1.mpr
    ⟨3, by simp, by norm_num⟩

/-- C7: the detailed-records excerpt shows the first `min(10, n)` samples;
exactly when the series has more than 20 samples it additionally shows an
ellipsis row followed by the last 10 samples; no row is duplicated; and for
exactly 25 samples the excerpt is samples 0–9, the ellipsis row, then
samples 15–24. -/
theorem C7_detailed_excerpt (n : ℕ) :
    (n ≤ 20 → detailed_rows n = (List.range (min 10 n)).map DetailRow.sample)
    ∧ (20 < n → detailed_rows n =
        ((List.range 10).map DetailRow.sample)
          ++ DetailRow.ellipsis :: ((List.range' (n - 10) 10).map DetailRow.sample))
    ∧ (detailed_rows n).Nodup
    ∧ detailed_rows 25 =
        ((List.range 10).map DetailRow.sample)
          ++ DetailRow.ellipsis :: ((List.range' 15 10).map DetailRow.sample) := by
  have hinj : Function.Injective DetailRow.sample := fun a b h => by
    cases h; rfl
  have h25 : detailed_rows 25 =
      ((List.range 10).map DetailRow.sample)
        ++ DetailRow.ellipsis :: ((List.range' 15 10).map DetailRow.sample) := by
    decide
  by_cases h20 : 20 < n
  · have hmin : min 10 n = 10 := by omega
    have hmax : max 10 (n - 10) = n - 10 := by omega
    have hbig : detailed_rows n =
        ((List.range 10).map DetailRow.sample)
          ++ DetailRow.ellipsis :: ((List.range' (n - 10) 10).map DetailRow.sample) := by
      rw [detailed_rows, if_pos h20, hmin, hmax]
      have hlen : n - (n - 10) = 10 := by omega
      rw [hlen]
    refine ⟨fun h => absurd h20 (by omega), fun _ => hbig, ?_, h25⟩
    rw [hbig, List.nodup_append]
    refine ⟨(List.nodup_range 10).map hinj, ?_, ?_⟩
    · rw [List.nodup_cons]
      refine ⟨?_, (List.nodup_range' _ _).map hinj⟩
      simp
    · intro a ha hb
      simp only [List.mem_map, List.mem_range] at ha
      obtain ⟨i, hi, rfl⟩ := ha
      simp only [List.mem_cons, List.mem_map, List.mem_range'_1] at hb
      rcases hb with hb | ⟨j, hj, hje⟩
      · exact DetailRow.noConfusion hb
      · have hij : j = i := by
          have := hinj hje
          exact this
        omega
  · have hsmall : detailed_rows n = (List.range (min 10 n)).map DetailRow.sample := by
      rw [detailed_rows, if_neg h20, List.append_nil]
    refine ⟨fun _ => hsmall, fun h => absurd h h20, ?_, h25⟩
    rw [hsmall]
    exact (List.nodup_range _).map hinj

/-- Witness for `C7_detailed_excerpt`: a 5-sample series shows only the
leading excerpt, and a 25-sample series shows 0–9, ellipsis, 15–24. -/
theorem C7_witness :
    detailed_rows 5 = (List.range (min 10 5)).map DetailRow.sample
    ∧ detailed_rows 25 =
        ((List.range 10).map DetailRow.sample)
          ++ DetailRow.ellipsis :: ((List.range' (25 - 10) 10).map DetailRow.sample) :=
  ⟨(C7_detailed_excerpt 5).1 (by norm_num), (C7_detailed_excerpt 25).2.1 (by norm_num)⟩

/-- C8: if the series store is empty when the run ends, `start` takes the
`else` branch: it prints the no-data notice and never calls
`generate_pdf_report`, so no document file is produced and nothing is
raised — a no-op, exactly as claimed. -/
theorem C8_empty_no_report (m : MonitorState) (h : m.timestamps = []) :
    start_finish m = FinishAction.noDataNotice "No data collected. Report not generated."
    ∧ ∀ f, start_finish m ≠ FinishAction.generateReport f := by
  have hlen : ¬ 0 < m.timestamps.length := by rw [h]; simp
  unfold start_finish
  rw [if_neg hlen]
  exact ⟨rfl, fun f hcontra => FinishAction.noConfusion hcontra⟩

/-- Witness for `C8_empty_no_report` at a freshly initialized monitor. -/
theorem C8_witness :
    start_finish (initState 120 none none)
      = FinishAction.noDataNotice "No data collected. Report not generated." :=
  (C8_empty_no_report (initState 120 none none) rfl).1

/-- C9: the claim "the temporary chart-image artifact is removed on every
exit path, including when document assembly fails partway" is FALSE of the
code: the `os.remove` cleanup sits after `doc.build` with no `try`/`finally`,
so when `doc.build` raises (unwritable output path) the method exits
abnormally (`false`) with `temp_graphs.png` still on disk (`true`). -/
theorem C9_counterexample :
    generate_pdf_report_fs false = (false, true) := rfl

/-- C9 amended: the temporary chart artifact is removed exactly on the
successful exit path: when `doc.build` succeeds the method returns normally
and the file is gone, and when it fails the method raises with the file
left behind. -/
theorem C9_cleanup_on_success_only (ok : Bool) :
    (generate_pdf_report_fs ok).1 = ok ∧ (generate_pdf_report_fs ok).2 = !ok := by
  cases ok <;> exact ⟨rfl, rfl⟩

/-- C10: after every completed `collect_data` call on a well-formed store,
all eleven per-metric series lists have grown by exactly one element and
still share one common length, so every index addresses one complete sample
row across all columns. -/
theorem C10_series_aligned (s : MonitorState) (r : TickReading)
    (hok : (collect_data s r).2 = true) (hwf : series_wf s) :
    series_wf (collect_data s r).1
    ∧ (collect_data s r).1.timestamps.length = s.timestamps.length + 1
    ∧ series_lengths (collect_data s r).1 = (series_lengths s).map (· + 1) := by
  obtain ⟨n, ln, hn, hln⟩ : ∃ n ln, r.net = some n ∧ s.last_net = some ln := by
    rcases hn : r.net with _ | n
    · simp [(collect_data_net_missing s r (Or.inl hn)).1] at hok
    · rcases hln : s.last_net with _ | ln
      · simp [(collect_data_net_missing s r (Or.inr hln)).1] at hok
      · exact ⟨n, ln, rfl, rfl⟩
  obtain ⟨-, h2, h3, h4, h5, h6, h7, h8, h9, h10, h11, h12⟩ :=
    collect_data_net_ok s r n ln hn hln
  have hts : (collect_data s r).1.timestamps.length = s.timestamps.length + 1 := by
    rw [h2]; simp
  have hlen : series_lengths (collect_data s r).1 = (series_lengths s).map (· + 1) := by
    simp [series_lengths, h2, h3, h4, h5, h6, h7, h8, h9, h10, h11, h12]
  refine ⟨?_, hts, hlen⟩
  unfold series_wf at hwf ⊢
  rw [hlen, hwf, hts, List.map_replicate]

/-- Witness for `C10_series_aligned`: one completed tick from the
`__init__` state. -/
theorem C10_witness :
    series_wf (collect_data (initState 120 (some ⟨0, 0⟩) (some ⟨0, 0⟩))
      ⟨1, 50, 40, some ⟨0, 0⟩, some ⟨0, 0⟩, none, none, none, none⟩).1 :=
  (C10_series_aligned (initState 120 (some ⟨0, 0⟩) (some ⟨0, 0⟩))
    ⟨1, 50, 40, some ⟨0, 0⟩, some ⟨0, 0⟩, none, none, none, none⟩
    rfl rfl).1

end SystemMonitor
